import Mathlib

/-!
Verification of the LSP client transport/RPC runtime (crate `liblspc`).

The definitions below are a shallow embedding of the representative draft of
the runtime: `src/lsp.rs` (crate root), `src/io.rs`, `src/listener.rs`,
`src/process.rs`, `src/utils.rs`.  Bytes are modelled as `Nat`, byte streams
as `List Nat`, and the shared correlation tables as association lists.  The
asynchronous loops are modelled as pure step functions over an explicit state
type; closures registered in the tables are modelled as Lean functions whose
results record the observable effects of an invocation (user-handler calls,
outbound messages, completion outcomes).
-/

/- ## Framing codec (src/io.rs, src/lsp.rs) -/

/-- Byte view of the `CONTENT_LEN_HEADER` constant, the string
`Content-Length: ` (src/lsp.rs:20). -/
def CONTENT_LEN_HEADER : List Nat :=
  [67, 111, 110, 116, 101, 110, 116, 45, 76, 101, 110, 103, 116, 104, 58, 32]

/-- Byte view of the `HEADER_DELIMITER` constant, the bytes `\r\n\r\n`
(src/lsp.rs:23). -/
def HEADER_DELIMITER : List Nat := [13, 10, 13, 10]

/-- The decimal ASCII digits of `n`, as produced by Rust's
`write!(buffer, "{}", n)` for a `usize` (src/io.rs:172). -/
def decDigits (n : Nat) : List Nat :=
  if n < 10 then [48 + n] else decDigits (n / 10) ++ [48 + n % 10]
termination_by n
decreasing_by
  exact Nat.div_lt_self (by omega) (by omega)

/-- The byte sequence the writer loop emits for one message of byte length
`msg.length`: `Content-Length: ` header, decimal length, `\r\n\r\n`, body
(src/io.rs:172-177). -/
def encodeFrame (msg : List Nat) : List Nat :=
  CONTENT_LEN_HEADER ++ decDigits msg.length ++ HEADER_DELIMITER ++ msg

/-- Model of `AsyncBufReadExt::read_until(b, buffer)` on a byte stream: the
consumed chunk (up to and including the first occurrence of `b`, or the whole
stream if `b` does not occur) together with the unread remainder. -/
def readUntil (b : Nat) : List Nat → List Nat × List Nat
  | [] => ([], [])
  | x :: xs =>
    if x = b then ([x], xs)
    else
      let p := readUntil b xs
      (x :: p.1, p.2)

theorem readUntil_append_eq (b : Nat) (s : List Nat) :
    (readUntil b s).1 ++ (readUntil b s).2 = s := by
  induction s with
  | nil => simp [readUntil]
  | cons x xs ih =>
    by_cases h : x = b <;> simp [readUntil, h, ih]

theorem readUntil_fst_ne_nil (b x : Nat) (xs : List Nat) :
    (readUntil b (x :: xs)).1 ≠ [] := by
  by_cases h : x = b <;> simp [readUntil, h]

theorem readUntil_snd_lt (b x : Nat) (xs : List Nat) :
    (readUntil b (x :: xs)).2.length < (x :: xs).length := by
  have h := readUntil_append_eq b (x :: xs)
  have h1 := readUntil_fst_ne_nil b x xs
  have h2 : (readUntil b (x :: xs)).1.length + (readUntil b (x :: xs)).2.length
      = (x :: xs).length := by
    rw [← List.length_append, h]
  have h3 : 0 < (readUntil b (x :: xs)).1.length := List.length_pos.mpr h1
  omega

/-- Model of the header-termination test in `read_header` (src/io.rs:38-40):
the accumulated buffer is at least 4 bytes long and its last 4 bytes are the
delimiter `\r\n\r\n`. -/
def endsWithDelim (buf : List Nat) : Bool :=
  decide (4 ≤ buf.length) && decide (buf.drop (buf.length - 4) = HEADER_DELIMITER)

/-- Model of `read_header` (src/io.rs:33-48): keep reading lines (up to the
next `\n`, byte 10) into the buffer until the buffer ends with the 4-byte
delimiter; fail if the stream ends first.  Returns the header bytes plus the
unread remainder of the stream. -/
def readHeader (buffer stream : List Nat) : Option (List Nat × List Nat) :=
  if endsWithDelim buffer then some (buffer, stream)
  else
    match stream with
    | [] => none
    | x :: xs =>
      readHeader (buffer ++ (readUntil 10 (x :: xs)).1) (readUntil 10 (x :: xs)).2
termination_by stream.length
decreasing_by
  exact readUntil_snd_lt 10 x xs

/-- Split a byte list at each `\n` (byte 10), dropping the separators, the
way Rust's `str::split('\n')` does; a trailing separator yields a final empty
piece (src/io.rs:203). -/
def splitOnLf : List Nat → List (List Nat)
  | [] => [[]]
  | x :: xs =>
    if x = 10 then [] :: splitOnLf xs
    else
      match splitOnLf xs with
      | [] => [[x]]
      | l :: ls => (x :: l) :: ls

/-- ASCII whitespace bytes removed by Rust's `str::trim_end` on the header
line (the header is ASCII in every frame this runtime emits). -/
def isWsByte (b : Nat) : Bool :=
  b = 9 || b = 10 || b = 11 || b = 12 || b = 13 || b = 32

/-- Model of `str::trim_end` on a byte list (src/io.rs:207). -/
def trimEndBytes (l : List Nat) : List Nat :=
  (l.reverse.dropWhile isWsByte).reverse

/-- ASCII decimal digit test. -/
def isDigitByte (b : Nat) : Bool := 48 ≤ b && b ≤ 57

/-- Value of a list of ASCII decimal digits, most significant first. -/
def digitsVal (l : List Nat) : Nat :=
  l.foldl (fun a d => a * 10 + (d - 48)) 0

/-- The optional leading `+` sign accepted by `str::parse::<usize>()`. -/
def stripPlus : List Nat → List Nat
  | 43 :: rest => rest
  | l => l

/-- Model of `str::parse::<usize>()` (src/io.rs:208): an optional leading `+`
followed by one or more decimal digits. -/
def parseUsize (l : List Nat) : Option Nat :=
  if !(stripPlus l).isEmpty && (stripPlus l).all isDigitByte then
    some (digitsVal (stripPlus l))
  else none

/-- Model of the `Content-Length` extraction in the reader loop
(src/io.rs:202-208): split the header at `\n`, find the first line starting
with `Content-Length: `, strip that token, trim trailing whitespace, and
parse the decimal length. -/
def parseContentLen (header : List Nat) : Option Nat :=
  match (splitOnLf header).find? (fun line => CONTENT_LEN_HEADER.isPrefixOf line) with
  | none => none
  | some line => parseUsize (trimEndBytes (line.drop CONTENT_LEN_HEADER.length))

/-- One full frame read as performed per iteration of the reader loop
(src/io.rs:197-211): read the header block, extract `Content-Length`, then
read exactly that many body bytes.  Returns the body and the unread
remainder of the stream. -/
def readFrame (stream : List Nat) : Option (List Nat × List Nat) :=
  match readHeader [] stream with
  | none => none
  | some (hdr, rest) =>
    match parseContentLen hdr with
    | none => none
    | some n => if n ≤ rest.length then some (rest.take n, rest.drop n) else none

/- ## Lemmas about the framing codec -/

theorem decDigits_bounds (n : Nat) : ∀ d ∈ decDigits n, 48 ≤ d ∧ d ≤ 57 := by
  induction n using Nat.strong_induction_on with
  | _ n ih =>
    rw [decDigits]
    by_cases h : n < 10
    · simp only [if_pos h, List.mem_singleton]
      rintro d rfl
      omega
    · simp only [if_neg h]
      intro d hd
      rcases List.mem_append.mp hd with h1 | h2
      · exact ih (n / 10) (Nat.div_lt_self (by omega) (by omega)) d h1
      · simp only [List.mem_singleton] at h2
        omega

theorem decDigits_ne_nil (n : Nat) : decDigits n ≠ [] := by
  rw [decDigits]
  by_cases h : n < 10 <;> simp [h]

theorem decDigits_concat (n : Nat) : ∃ ds, decDigits n = ds ++ [48 + n % 10] := by
  rw [decDigits]
  by_cases h : n < 10
  · exact ⟨[], by simp [h, Nat.mod_eq_of_lt h]⟩
  · exact ⟨decDigits (n / 10), by simp [h]⟩

theorem digitsVal_append_one (xs : List Nat) (x : Nat) :
    digitsVal (xs ++ [x]) = digitsVal xs * 10 + (x - 48) := by
  simp [digitsVal, List.foldl_append]

theorem digitsVal_decDigits (n : Nat) : digitsVal (decDigits n) = n := by
  induction n using Nat.strong_induction_on with
  | _ n ih =>
    rw [decDigits]
    by_cases h : n < 10
    · simp only [if_pos h]
      simp [digitsVal]
    · simp only [if_neg h]
      rw [digitsVal_append_one, ih (n / 10) (Nat.div_lt_self (by omega) (by omega))]
      omega

theorem readUntil_ten (a r : List Nat) (ha : ∀ x ∈ a, x ≠ 10) :
    readUntil 10 (a ++ 10 :: r) = (a ++ [10], r) := by
  induction a with
  | nil => simp [readUntil]
  | cons x xs ih =>
    have hx : x ≠ 10 := ha x (by simp)
    have ih' := ih (fun y hy => ha y (by simp [hy]))
    simp [readUntil, hx, ih']

theorem splitOnLf_append (a b : List Nat) (ha : ∀ x ∈ a, x ≠ 10) :
    splitOnLf (a ++ 10 :: b) = a :: splitOnLf b := by
  induction a with
  | nil => simp [splitOnLf]
  | cons x xs ih =>
    have hx : x ≠ 10 := ha x (by simp)
    have ih' := ih (fun y hy => ha y (by simp [hy]))
    simp only [List.cons_append, splitOnLf, if_neg hx, List.append_eq, ih']

theorem take_len_append (a b : List Nat) : (a ++ b).take a.length = a := by
  induction a with
  | nil => simp
  | cons x xs ih => simp [ih]

theorem drop_len_append (a b : List Nat) : (a ++ b).drop a.length = b := by
  induction a with
  | nil => simp
  | cons x xs ih => simp [ih]

theorem endsWithDelim_append4 (l : List Nat) (a b c d : Nat) :
    endsWithDelim (l ++ [a, b, c, d]) = decide ([a, b, c, d] = HEADER_DELIMITER) := by
  unfold endsWithDelim
  have h1 : (l ++ [a, b, c, d]).length = l.length + 4 := by simp
  rw [h1]
  have h3 : l.length + 4 - 4 = l.length := by omega
  rw [h3, drop_len_append]
  simp

theorem endsWithDelim_last3 (l : List Nat) (hl : l ≠ []) (b c d : Nat) (hb : b ≠ 10) :
    endsWithDelim (l ++ [b, c, d]) = false := by
  rcases List.eq_nil_or_concat l with h | ⟨f, z, hf⟩
  · exact absurd h hl
  · subst hf
    rw [List.concat_eq_append, List.append_assoc]
    show endsWithDelim (f ++ [z, b, c, d]) = false
    rw [endsWithDelim_append4]
    simp [HEADER_DELIMITER]
    omega

theorem readHeader_done (buffer stream : List Nat) (h : endsWithDelim buffer = true) :
    readHeader buffer stream = some (buffer, stream) := by
  rw [readHeader.eq_def]
  simp [h]

theorem readHeader_step (buffer stream : List Nat) (h : endsWithDelim buffer = false)
    (hs : stream ≠ []) :
    readHeader buffer stream =
      readHeader (buffer ++ (readUntil 10 stream).1) (readUntil 10 stream).2 := by
  cases stream with
  | nil => exact absurd rfl hs
  | cons x xs =>
    conv_lhs => rw [readHeader.eq_def]
    simp [h]

theorem isPrefixOf_self_append (a t : List Nat) : a.isPrefixOf (a ++ t) = true := by
  induction a with
  | nil => simp [List.isPrefixOf]
  | cons x xs ih => simp [List.isPrefixOf, ih]

theorem dropWhile_eq_self_of_all_false (p : Nat → Bool) (l : List Nat)
    (h : ∀ x ∈ l, p x = false) : l.dropWhile p = l := by
  cases l with
  | nil => rfl
  | cons x xs =>
    have hx : p x = false := h x (by simp)
    simp [List.dropWhile, hx]

theorem trimEnd_cr (l : List Nat) (hl : ∀ x ∈ l, isWsByte x = false) :
    trimEndBytes (l ++ [13]) = l := by
  unfold trimEndBytes
  rw [List.reverse_append]
  have h13 : ([13] : List Nat).reverse = [13] := rfl
  rw [h13]
  have hws : isWsByte 13 = true := rfl
  simp only [List.cons_append, List.nil_append, List.append_eq, List.dropWhile, hws]
  rw [dropWhile_eq_self_of_all_false isWsByte l.reverse
    (fun x hx => hl x (List.mem_reverse.mp hx))]
  exact List.reverse_reverse l

theorem stripPlus_cons_of_ne (x : Nat) (xs : List Nat) (h : x ≠ 43) :
    stripPlus (x :: xs) = x :: xs := by
  unfold stripPlus
  split
  · rename_i heq
    injection heq with h1 _
    exact absurd h1 h
  · rfl

theorem parseUsize_decDigits (n : Nat) : parseUsize (decDigits n) = some n := by
  have hb := decDigits_bounds n
  have hne := decDigits_ne_nil n
  cases hd : decDigits n with
  | nil => exact absurd hd hne
  | cons x xs =>
    have hx : 48 ≤ x ∧ x ≤ 57 := hb x (by rw [hd]; simp)
    have hall : (x :: xs).all isDigitByte = true := by
      rw [← hd]
      simp only [List.all_eq_true]
      intro d hdm
      have := hb d hdm
      simp only [isDigitByte, Bool.and_eq_true, decide_eq_true_eq]
      omega
    unfold parseUsize
    rw [stripPlus_cons_of_ne x xs (by omega), hall]
    simp only [List.isEmpty_cons, Bool.not_false, Bool.and_true, if_true]
    rw [← hd, digitsVal_decDigits]

/-- Claim C8.  Encoding any body via the writer loop's framing
(`Content-Length: ` + decimal byte length + `\r\n\r\n` + body, src/io.rs:172-177)
and then reading one frame back via the reader loop's header scan and
`read_exact` (src/io.rs:33-48, 197-211) returns exactly the original body and
leaves the stream positioned at the start of the next frame. -/
theorem encode_read_frame_round_trip (body rest : List Nat) :
    readFrame (encodeFrame body ++ rest) = some (body, rest) := by
  have hdig := decDigits_bounds body.length
  have hdig10 : ∀ x ∈ decDigits body.length, x ≠ 10 := fun x hx => by
    have := hdig x hx; omega
  have hclh10 : ∀ x ∈ CONTENT_LEN_HEADER, x ≠ 10 := by decide
  obtain ⟨ds, hds⟩ := decDigits_concat body.length
  set A : List Nat := CONTENT_LEN_HEADER ++ decDigits body.length ++ [13] with hA
  have hA10 : ∀ x ∈ A, x ≠ 10 := by
    intro x hx
    rw [hA] at hx
    rcases List.mem_append.mp hx with h | h
    · rcases List.mem_append.mp h with h' | h'
      · exact hclh10 x h'
      · exact hdig10 x h'
    · simp only [List.mem_singleton] at h
      omega
  have hstream : encodeFrame body ++ rest = A ++ 10 :: (13 :: 10 :: (body ++ rest)) := by
    simp [encodeFrame, HEADER_DELIMITER, hA]
  have hbuf1 : ([] : List Nat) ++ (A ++ [10])
      = (CONTENT_LEN_HEADER ++ ds) ++ [48 + body.length % 10, 13, 10] := by
    simp [hA, hds]
  have hbuf1false : endsWithDelim (([] : List Nat) ++ (A ++ [10])) = false := by
    rw [hbuf1]
    exact endsWithDelim_last3 _ (by simp [CONTENT_LEN_HEADER]) _ _ _ (by omega)
  have hbuf2 : (([] : List Nat) ++ (A ++ [10])) ++ ([13] ++ [10])
      = (CONTENT_LEN_HEADER ++ decDigits body.length) ++ HEADER_DELIMITER := by
    simp [hA, HEADER_DELIMITER]
  have hbuf2true : endsWithDelim ((([] : List Nat) ++ (A ++ [10])) ++ ([13] ++ [10])) = true := by
    rw [hbuf2]
    show endsWithDelim ((CONTENT_LEN_HEADER ++ decDigits body.length) ++ [13, 10, 13, 10]) = true
    rw [endsWithDelim_append4]
    decide
  have hRH : readHeader [] (encodeFrame body ++ rest)
      = some ((CONTENT_LEN_HEADER ++ decDigits body.length) ++ HEADER_DELIMITER,
          body ++ rest) := by
    rw [hstream]
    rw [readHeader_step [] (A ++ 10 :: (13 :: 10 :: (body ++ rest))) (by decide) (by simp)]
    rw [readUntil_ten A (13 :: 10 :: (body ++ rest)) hA10]
    rw [readHeader_step _ _ hbuf1false (by simp)]
    rw [show (13 : Nat) :: 10 :: (body ++ rest) = [13] ++ 10 :: (body ++ rest) from rfl]
    rw [readUntil_ten [13] (body ++ rest) (by decide)]
    rw [readHeader_done _ _ hbuf2true]
    rw [hbuf2]
  have hsplit : splitOnLf ((CONTENT_LEN_HEADER ++ decDigits body.length) ++ HEADER_DELIMITER)
      = A :: [13] :: [[]] := by
    rw [show (CONTENT_LEN_HEADER ++ decDigits body.length) ++ HEADER_DELIMITER
        = A ++ 10 :: ([13] ++ 10 :: []) by simp [hA, HEADER_DELIMITER]]
    rw [splitOnLf_append A _ hA10]
    rw [splitOnLf_append [13] [] (by decide)]
    rfl
  have hpre : CONTENT_LEN_HEADER.isPrefixOf A = true := by
    rw [hA, List.append_assoc]
    exact isPrefixOf_self_append _ _
  have hPCL : parseContentLen ((CONTENT_LEN_HEADER ++ decDigits body.length) ++ HEADER_DELIMITER)
      = some body.length := by
    unfold parseContentLen
    rw [hsplit]
    rw [List.find?_cons_of_pos _ hpre]
    show parseUsize (trimEndBytes (List.drop CONTENT_LEN_HEADER.length A)) = some body.length
    have hdropA : List.drop CONTENT_LEN_HEADER.length A = decDigits body.length ++ [13] := by
      rw [hA, List.append_assoc, drop_len_append]
    rw [hdropA]
    rw [trimEnd_cr (decDigits body.length) (fun x hx => by
      have := hdig x hx
      simp [isWsByte]
      omega)]
    exact parseUsize_decDigits body.length
  unfold readFrame
  rw [hRH]
  show (match parseContentLen (CONTENT_LEN_HEADER ++ decDigits body.length ++ HEADER_DELIMITER) with
    | none => none
    | some n =>
      if n ≤ (body ++ rest).length then
        some ((body ++ rest).take n, (body ++ rest).drop n)
      else none) = some (body, rest)
  rw [hPCL]
  have hlen : body.length ≤ (body ++ rest).length := by simp
  show (if body.length ≤ (body ++ rest).length then
      some ((body ++ rest).take body.length, (body ++ rest).drop body.length)
    else none) = some (body, rest)
  rw [if_pos hlen, take_len_append, drop_len_append]

/- ## JSON values and serialization (serde_json boundary, src/lsp.rs) -/

/-- JSON values as used by the envelope types (`serde_json::Value`; numbers
are restricted to integers, which is all this runtime ever produces
itself). -/
inductive Json where
  | null
  | bool (b : Bool)
  | num (n : Int)
  | str (s : String)
  | arr (elems : List Json)
  | obj (fields : List (String × Json))

/-- Minimal JSON string escaping (quote and backslash; the control-character
escapes serde also emits are irrelevant to every claim below). -/
def jsonEscape (s : String) : String :=
  String.join (s.data.map (fun c =>
    if c = '\"' then "\\\"" else if c = '\\' then "\\\\" else String.singleton c))

mutual

/-- Compact serde-style rendering of a JSON value. -/
def Json.render : Json → String
  | .null => "null"
  | .bool b => if b then "true" else "false"
  | .num n => toString n
  | .str s => "\"" ++ jsonEscape s ++ "\""
  | .arr elems => "[" ++ Json.renderElems elems ++ "]"
  | .obj fields => "\x7b" ++ Json.renderFields fields ++ "\x7d"

def Json.renderElems : List Json → String
  | [] => ""
  | [j] => j.render
  | j :: rest => j.render ++ "," ++ Json.renderElems rest

def Json.renderFields : List (String × Json) → String
  | [] => ""
  | [(k, v)] => "\"" ++ jsonEscape k ++ "\":" ++ v.render
  | (k, v) :: rest => "\"" ++ jsonEscape k ++ "\":" ++ v.render ++ "," ++ Json.renderFields rest

end

/- ## Envelope data model (src/lsp.rs) -/

/-- `RequestId` (src/lsp.rs:31-34): untagged integer-or-string id. -/
inductive RequestId where
  | int (i : Int)
  | str (s : String)
deriving DecidableEq

/-- `LSPError` (src/lsp.rs:96-100): message, code, optional data. -/
structure LSPError where
  message : String
  code : Int
  data : Option Json

/-- `AnyResponse` (src/lsp.rs:109-116).  `result` holds the raw JSON text of
the `result` field (the `Option<&RawValue>` whose `.get()` the completion
path passes on as a string, src/io.rs:240). -/
structure AnyResponse where
  jsonrpc : String
  id : RequestId
  result : Option String
  error : Option LSPError

/-- `AnyNotification` (src/lsp.rs:119-125). -/
structure AnyNotification where
  method : String
  id : Option RequestId
  params : Option Json

/-- JSON view of a `RequestId` (serde `untagged` serialization). -/
def RequestId.toJson : RequestId → Json
  | .int i => Json.num i
  | .str s => Json.str s

/-- Serialization of `LSPRequest` (src/lsp.rs:44-49, serde field order), as
built by `Listener::request` (src/listener.rs:106-112) with an integer id. -/
def renderRequest (id : Int) (method : String) (params : Json) : String :=
  Json.render (Json.obj [("jsonrpc", Json.str "2.0"), ("id", Json.num id),
    ("method", Json.str method), ("params", params)])

/-- Serialization of `LSPNotification` (src/lsp.rs:58-62), as built by
`Listener::send_notification` (src/listener.rs:179-184). -/
def renderNotification (method : String) (params : Json) : String :=
  Json.render (Json.obj [("jsonrpc", Json.str "2.0"),
    ("method", Json.str method), ("params", params)])

/-- serde serialization of an `LSPError` value (src/lsp.rs:96-100; a `None`
data field is serialized as JSON `null`). -/
def LSPError.toJson (e : LSPError) : Json :=
  Json.obj [("message", Json.str e.message), ("code", Json.num e.code),
    ("data", (e.data.map id).getD Json.null)]

/-- Serialization of a success `LSPResponse` (src/lsp.rs:72-87,
`LSPResult::Ok(Some result)` flattened to a `result` field), as built by the
`on_request` wrapper (src/listener.rs:237-242). -/
def renderResponseOk (id : RequestId) (result : Json) : String :=
  Json.render (Json.obj [("jsonrpc", Json.str "2.0"), ("id", id.toJson),
    ("result", result)])

/-- Serialization of an error `LSPResponse` (`LSPResult::Err(Some e)`), as
built by the `on_request` wrapper (src/listener.rs:243-251). -/
def renderResponseErr (id : RequestId) (e : LSPError) : String :=
  Json.render (Json.obj [("jsonrpc", Json.str "2.0"), ("id", id.toJson),
    ("error", e.toJson)])

/-- Serialization of the `AnyResponse` error envelope built on a params
deserialization failure in the `on_request` wrapper (src/listener.rs:266-275;
the `None` result field serializes as `null`). -/
def renderAnyResponseErr (id : RequestId) (e : LSPError) : String :=
  Json.render (Json.obj [("jsonrpc", Json.str "2.0"), ("id", id.toJson),
    ("result", Json.null), ("error", e.toJson)])

/-- `lsp_types::error_codes::REQUEST_FAILED` as used at src/listener.rs:248. -/
def REQUEST_FAILED : Int := -32803

/-- `lsp_types::error_codes::UNKNOWN_ERROR_CODE` as used at
src/listener.rs:272. -/
def UNKNOWN_ERROR_CODE : Int := -32001

/- ## Association-list model of the shared `HashMap` tables -/

/-- `HashMap::insert`: returns the previous value for the key (if any) and
the updated table. -/
def assocInsert {κ ν : Type} [DecidableEq κ] :
    List (κ × ν) → κ → ν → Option ν × List (κ × ν)
  | [], k, v => (none, [(k, v)])
  | (k', v') :: rest, k, v =>
    if k' = k then (some v', (k, v) :: rest)
    else
      let p := assocInsert rest k v
      (p.1, (k', v') :: p.2)

/-- `HashMap::remove`: returns the removed value (if any) and the remaining
table. -/
def assocRemove {κ ν : Type} [DecidableEq κ] :
    List (κ × ν) → κ → Option ν × List (κ × ν)
  | [], _ => (none, [])
  | (k', v') :: rest, k =>
    if k' = k then (some v', rest)
    else
      let p := assocRemove rest k
      (p.1, (k', v') :: p.2)

/-- `HashMap::get`. -/
def assocLookup {κ ν : Type} [DecidableEq κ] : List (κ × ν) → κ → Option ν
  | [], _ => none
  | (k', v') :: rest, k => if k' = k then some v' else assocLookup rest k

theorem assocInsert_fst {κ ν : Type} [DecidableEq κ] (m : List (κ × ν)) (k : κ) (v : ν) :
    (assocInsert m k v).1 = assocLookup m k := by
  induction m with
  | nil => rfl
  | cons p rest ih =>
    obtain ⟨k', v'⟩ := p
    by_cases h : k' = k <;> simp [assocInsert, assocLookup, h, ih]

/- ## Request outcomes and handler closures (src/listener.rs, src/io.rs) -/

/-- The value a `request::<T>()` caller receives, one constructor per
control path of `Listener::request` (src/listener.rs:98-173):
`ok` — response deserialized into `T::Result` (line 129);
`decodeErr` — `serde_json::from_str` failed on the raw result text
(lines 130-133);
`rpcErr` — the response carried an error object and only its `message`
is propagated via `anyhow!("{}", e.message)` (line 135);
`recvErr` — the oneshot sender was dropped without being fired, so
`rx.await` returns a channel-closed `RecvError` (lines 156-158);
`timeoutErr` — the `select!` timeout branch fired and the call bailed with
the fixed message (lines 169-171). -/
inductive ReqOutcome (R : Type) where
  | ok (r : R)
  | decodeErr (raw : String)
  | rpcErr (message : String)
  | recvErr
  | timeoutErr (message : String)
deriving DecidableEq

/-- The `ResponseHandler` closure type (src/io.rs:28): consumes
`Result<String, LSPError>` exactly once; in the model it returns the outcome
it delivers to the waiting caller through the oneshot channel. -/
def RHandler (R : Type) : Type := Except LSPError String → ReqOutcome R

/-- The completion closure `Listener::request` installs in the
pending-response table (src/listener.rs:125-139), parameterized by the serde
decoder for `T::Result`. -/
def mkResponseHandler {R : Type} (dec : String → Option R) : RHandler R :=
  fun input =>
    match input with
    | .ok raw =>
      match dec raw with
      | some v => ReqOutcome.ok v
      | none => ReqOutcome.decodeErr raw
    | .error e => ReqOutcome.rpcErr e.message

/-- Observable effect of one `NotificationHandler` invocation: the raw
params values for which the user-supplied handler was actually called, and
the serialized responses pushed onto the outbound queue. -/
structure HandlerOut where
  userCalls : List Json
  sent : List String

/-- The `NotificationHandler` closure type (src/io.rs:31). -/
def NHandler : Type := Option RequestId → Json → HandlerOut

/-- The wrapper `Listener::on_notification` installs (src/listener.rs:199-203):
deserialize the params with the method's serde decoder; invoke the user
handler only on success, silently doing nothing on failure. -/
def notificationWrapper {P : Type} (parse : Json → Option P) : NHandler :=
  fun _ params =>
    match parse params with
    | some _ => { userCalls := [params], sent := [] }
    | none => { userCalls := [], sent := [] }

/-- The wrapper `Listener::on_request` installs (src/listener.rs:228-283):
ignore messages without an id; on params deserialization failure send an
`AnyResponse` error envelope with `UNKNOWN_ERROR_CODE` (the message of the
serde error is modelled as a fixed string); on success run the user handler
and send back either a success `LSPResponse` or a `REQUEST_FAILED` error. -/
def requestWrapper {P R' : Type} (parse : Json → Option P) (f : P → Except String R')
    (ser : R' → Json) : NHandler :=
  fun mid params =>
    match mid with
    | none => { userCalls := [], sent := [] }
    | some id =>
      match parse params with
      | some p =>
        match f p with
        | .ok r => { userCalls := [params], sent := [renderResponseOk id (ser r)] }
        | .error emsg =>
          { userCalls := [params],
            sent := [renderResponseErr id
              { message := emsg, code := REQUEST_FAILED, data := none }] }
      | none =>
        { userCalls := [],
          sent := [renderAnyResponseErr id
            { message := "deserialization error", code := UNKNOWN_ERROR_CODE,
              data := none }] }

/- ## Shared runtime state (one `LanguageServer`, src/process.rs:34-107) -/

/-- The shared mutable state of one connection, as threaded through
`LanguageServer::new` (src/process.rs:63-107): the id counter and the three
tables shared between `Listener` and `IO`, the outbound queue
(`request_tx`/`request_rx`), and the lifecycle flags of the spawned tasks.
`responseHandlers = none` models the `Option` taken by the deferred cleanups
(src/io.rs:154-159, src/listener.rs:74-79); `queueOpen = false` models the
outbound channel after its receiver is dropped. -/
structure LspState (R : Type) where
  nextId : Int
  responseHandlers : Option (List (RequestId × RHandler R))
  notificationHandlers : List (String × NHandler)
  ioHandlers : List Int
  outQueue : List String
  queueOpen : Bool
  outputTaskAborted : Bool
  stdinTaskAborted : Bool
  stderrTaskAborted : Bool
  stdoutTaskAborted : Bool
  processKilled : Bool

/- ## `Listener::request` (src/listener.rs:98-173) -/

/-- The synchronous part of `Listener::request`: allocate the next id
(line 102-104), serialize the `LSPRequest` (lines 106-112), insert the
completion closure into the pending-response table if it is still present
(lines 116-141; on `none` the `anyhow!("Server shutdown")` error value is
built but, as `handle_response`, later discarded by `unwrap_or_default()` at
line 154), and send the serialized message on the outbound channel
unconditionally (lines 143-147; the send only fails if the receiver is
gone).  Returns the new state, the allocated id, whether the completion
closure was installed, and whether the send succeeded. -/
def requestStep {R : Type} (st : LspState R) (method : String) (params : Json)
    (dec : String → Option R) : LspState R × Int × Bool × Bool :=
  let id := st.nextId
  let message := renderRequest id method params
  let inserted := st.responseHandlers.isSome
  let handlers' := match st.responseHandlers with
    | some m => some (assocInsert m (RequestId.int id) (mkResponseHandler dec)).2
    | none => none
  let sendOk := st.queueOpen
  let queue' := if st.queueOpen then st.outQueue ++ [message] else st.outQueue
  ({ st with nextId := id + 1, responseHandlers := handlers', outQueue := queue' },
    id, inserted, sendOk)

/-- A `request` call during which no matching response is ever delivered
(src/listener.rs:149-172).  If the completion closure was installed, nothing
ever fires the oneshot sender, so the 5-second `timeout_task` wins the
`select!` and the call bails with `"Lsp Request time out"` — mutating
nothing.  If the closure was not installed (pending table already cleared),
the sender was dropped inside the unused `.map` closure, so `rx.await`
resolves immediately with a channel-closed `RecvError` and the call returns
that error (the `"Server shutdown"` value having been discarded by
`unwrap_or_default()`). -/
def runRequestNoResponse {R : Type} (st : LspState R) (method : String) (params : Json)
    (dec : String → Option R) : ReqOutcome R × LspState R :=
  let r := requestStep st method params dec
  (if r.2.2.1 then ReqOutcome.timeoutErr "Lsp Request time out" else ReqOutcome.recvErr,
    r.1)

/- ## Response completion path of the reader loop (src/io.rs:222-245) -/

/-- The reader loop's handling of a frame that parsed as `AnyResponse`
(src/io.rs:228-245): take the pending-response map if still present, remove
the handler keyed by the response id (absent ids are discarded silently),
and fire it with `Err(error)`, `Ok(result text)`, or `Ok("null")` in that
order of precedence.  Returns the updated state and the outcome the fired
handler delivered to its waiting caller (`none` if no handler fired). -/
def completeWithResponse {R : Type} (st : LspState R) (resp : AnyResponse) :
    LspState R × Option (ReqOutcome R) :=
  match st.responseHandlers with
  | none => (st, none)
  | some m =>
    match assocRemove m resp.id with
    | (none, _) => (st, none)
    | (some h, m') =>
      let st' := { st with responseHandlers := some m' }
      match resp.error with
      | some e => (st', some (h (.error e)))
      | none =>
        match resp.result with
        | some r => (st', some (h (.ok r)))
        | none => (st', some (h (.ok "null")))

/- ## Handler registration and `Subscription` (src/listener.rs, src/utils.rs) -/

/-- `Subscription` (src/utils.rs:30-40): a handle remembering which table
and key a registration used; the `Option` field is cleared by `detach`.
The Rust type stores the table reference itself; the model only needs its
presence. -/
inductive Subscription where
  | notif (method : String) (bound : Bool)
  | obs (id : Int) (bound : Bool)

/-- `Subscription::detach` (src/utils.rs:44-52): clear the internal table
reference; the table itself is untouched. -/
def Subscription.detach : Subscription → Subscription
  | .notif method _ => .notif method false
  | .obs id _ => .obs id false

/-- Dropping a `Subscription`.  The Rust type has no `Drop` implementation
(src/utils.rs:30-53 is the whole definition), so dropping it only drops its
fields (releasing the `Arc`/`Weak` table reference) and performs no table
mutation whatsoever. -/
def subscriptionDrop {R : Type} (_s : Subscription) (st : LspState R) : LspState R := st

/-- `Listener::on_notification` (src/listener.rs:191-216): insert the
wrapper into the handler table (replacing any previous entry and getting it
back, line 197-204), then `assert!` that no previous handler existed
(lines 206-210) — modelled as an `Except` whose error is the panic message.
On success returns the bound `Subscription`. -/
def onNotification {R P : Type} (st : LspState R) (method : String)
    (parse : Json → Option P) : LspState R × Except String Subscription :=
  let p := assocInsert st.notificationHandlers method (notificationWrapper parse)
  let st' := { st with notificationHandlers := p.2 }
  match p.1 with
  | some _ => (st', .error ("Multiple handler for " ++ method ++ " registered"))
  | none => (st', .ok (Subscription.notif method true))

/-- `Listener::on_request` (src/listener.rs:218-296): same registration
protocol as `on_notification`, into the same `notification_handlers` table,
with the request wrapper. -/
def onRequest {R P R' : Type} (st : LspState R) (method : String)
    (parse : Json → Option P) (f : P → Except String R') (ser : R' → Json) :
    LspState R × Except String Subscription :=
  let p := assocInsert st.notificationHandlers method (requestWrapper parse f ser)
  let st' := { st with notificationHandlers := p.2 }
  match p.1 with
  | some _ => (st', .error ("Multiple handler for " ++ method ++ " registered"))
  | none => (st', .ok (Subscription.notif method true))

/-- `Listener::on_io` (src/listener.rs:298-312): allocate an id from the
same counter, insert into the I/O-observer table, return a bound
subscription. -/
def onIo {R : Type} (st : LspState R) : LspState R × Subscription :=
  let id := st.nextId
  ({ st with nextId := id + 1, ioHandlers := st.ioHandlers ++ [id] },
    Subscription.obs id true)

/- ## Dispatch loop (src/listener.rs:68-96) -/

/-- One iteration of `Listener::handle_output`'s dispatch loop
(src/listener.rs:81-92): look up the handler under the method name and
invoke it with `(message.id, message.params.unwrap_or(Value::Null))`; a
method with no handler is dropped.  The table itself is never modified by
dispatch. -/
def handleOutputStep {R : Type} (st : LspState R) (msg : AnyNotification) :
    LspState R × HandlerOut :=
  match assocLookup st.notificationHandlers msg.method with
  | some h => (st, h msg.id (msg.params.getD Json.null))
  | none => (st, { userCalls := [], sent := [] })

/- ## Teardown (src/listener.rs:314-321, src/io.rs:303-310, src/process.rs:216-220) -/

/-- `IO::kill` (src/io.rs:303-310): aborts `stdin_task` (twice — the second
abort at line 305 repeats `stdin_task`; `stdout_task` is never aborted) and
`stderr_task`, then `start_kill`s the subprocess.  No table is touched. -/
def ioKill {R : Type} (st : LspState R) : LspState R :=
  { st with stdinTaskAborted := true, stderrTaskAborted := true, processKilled := true }

/-- `Listener::kill` (src/listener.rs:314-321): abort the dispatch task,
then execute `drop(self.io_handlers.lock())`, `drop(self.notification_handlers.lock())`
and `drop(self.response_handlers.lock())` — each of which locks a mutex and
immediately drops the *guard*, mutating nothing.  No table entry is removed
and no pending waiter is completed here. -/
def listenerKill {R : Type} (st : LspState R) : LspState R :=
  { st with outputTaskAborted := true }

/-- `LanguageServer::kill` (src/process.rs:216-220): `io.kill()` then
`listener.kill()`. -/
def languageServerKill {R : Type} (st : LspState R) : LspState R :=
  listenerKill (ioKill st)

/-- The deferred cleanup installed by `utils::defer` in `handle_output`
(src/listener.rs:74-79) and `stdin_task` (src/io.rs:154-159), which runs
only when the aborted task's future is eventually dropped by the runtime —
not during `kill()` itself: `response_handlers.lock().take()` drops every
pending `ResponseHandler` closure without invoking it.  Dropping such a
closure drops its captured oneshot sender, so each waiting caller's
`rx.await` resolves with a channel-closed `RecvError`
(src/listener.rs:156-158).  Returns the cleaned state and, per formerly
pending id, the outcome its waiter receives. -/
def responseHandlersCleanup {R : Type} (st : LspState R) :
    LspState R × List (RequestId × ReqOutcome R) :=
  ({ st with responseHandlers := none },
    (st.responseHandlers.getD []).map (fun p => (p.1, ReqOutcome.recvErr)))

/- ## UTF-8 validity (`std::str::from_utf8`) and the transport loops (src/io.rs) -/

/-- UTF-8 continuation byte (`0x80..=0xBF`). -/
def contByte (c : Nat) : Bool := 128 ≤ c && c ≤ 191

/-- Model of `std::str::from_utf8(..).is_ok()` on a byte list: the standard
UTF-8 well-formedness check (RFC 3629 ranges, rejecting overlong forms,
surrogates and values above U+10FFFF exactly as the Rust standard library
does). -/
def utf8Valid : List Nat → Bool
  | [] => true
  | b :: rest =>
    if b ≤ 127 then utf8Valid rest
    else if b < 194 then false
    else if b ≤ 223 then
      match rest with
      | c1 :: r => contByte c1 && utf8Valid r
      | [] => false
    else if b ≤ 239 then
      match rest with
      | c1 :: c2 :: r =>
        (if b = 224 then decide (160 ≤ c1) && decide (c1 ≤ 191)
         else if b = 237 then decide (128 ≤ c1) && decide (c1 ≤ 159)
         else contByte c1) && contByte c2 && utf8Valid r
      | _ => false
    else if b ≤ 244 then
      match rest with
      | c1 :: c2 :: c3 :: r =>
        (if b = 240 then decide (144 ≤ c1) && decide (c1 ≤ 191)
         else if b = 244 then decide (128 ≤ c1) && decide (c1 ≤ 143)
         else contByte c1) && contByte c2 && contByte c3 && utf8Valid r
      | _ => false
    else false

/-- The UTF-8 bytes of a string, as `str::len` / `as_bytes` see them. -/
def strBytes (s : String) : List Nat := s.toUTF8.toList.map (fun b => b.toNat)

/-- `IOKind` (src/io.rs:50-55).  `In`/`Out`/`Err` name the subprocess
stream a task touches: the writer loop (stdin) reports `In`, the reader
loop (stdout) reports `Out`, the stderr loop reports `Err`. -/
inductive IOKind where
  | In
  | Out
  | Err
deriving DecidableEq

/-- Observable events of one writer-loop iteration: an I/O-observer
invocation (observer key, direction, message text) or the framed bytes
written to the subprocess stdin. -/
inductive WriterEvent where
  | observe (handler : Int) (kind : IOKind) (text : String)
  | write (bytes : List Nat)
deriving DecidableEq


/-- The observer notifications of one writer-loop iteration
(src/io.rs:166-168): each handler in the I/O-observer table is invoked with
`IOKind::In` and the message text, in table order. -/
def stdinObserve (handlers : List Int) (message : String) : List WriterEvent :=
  match handlers with
  | [] => []
  | h :: t => WriterEvent.observe h IOKind.In message :: stdinObserve t message

/-- One iteration of the writer loop `IO::stdin_task` (src/io.rs:163-177):
notify every I/O observer (with `IOKind::In`), then frame the message and
write header+body to the subprocess stdin (the four buffered `write_all`
calls plus `flush` are one `write` event carrying the whole frame). -/
def stdinIter (handlers : List Int) (message : String) : List WriterEvent :=
  stdinObserve handlers message ++ [WriterEvent.write (encodeFrame (strBytes message))]

/-- The writer loop run over a queue of outbound messages, in queue order
(src/io.rs:163-178). -/
def stdinRun (handlers : List Int) : List String → List WriterEvent
  | [] => []
  | m :: q => stdinIter handlers m ++ stdinRun handlers q

/-- Observable events of one reader-loop iteration: I/O-observer
invocations carrying the frame body. -/
inductive ReaderEvent where
  | observe (handler : Int) (kind : IOKind) (body : List Nat)
deriving DecidableEq

/-- Result of one reader-loop iteration on a frame body: continue with the
updated state (plus the outcome delivered to a completed request, if any,
and the notification forwarded to the dispatch loop, if any), or terminate
the loop with an error. -/
inductive ReaderOutcome (R : Type) where
  | next (st : LspState R) (delivered : Option (ReqOutcome R))
      (forwarded : Option AnyNotification)
  | fatal (reason : String)

/-- One iteration of the reader loop `IO::stdout_task` after a frame body
has been read (src/io.rs:213-251), parameterized by the two serde shape
parsers (`serde_json::from_slice::<AnyNotification>` and
`serde_json::from_slice::<AnyResponse>`): if the body is valid UTF-8,
notify every I/O observer with `IOKind::Out` and the body text; then try the
notification shape (forwarding on success), then the response shape
(running the completion path on success); a body matching neither shape is
logged via `std::str::from_utf8(&buffer)?` — which, for a body that is *not*
valid UTF-8, propagates a `Utf8Error` out of the loop, terminating it. -/
def stdoutIter {R : Type} (pN : List Nat → Option AnyNotification)
    (pR : List Nat → Option AnyResponse) (st : LspState R) (body : List Nat) :
    List ReaderEvent × ReaderOutcome R :=
  let events := if utf8Valid body then
      st.ioHandlers.map (fun h => ReaderEvent.observe h IOKind.Out body)
    else []
  match pN body with
  | some msg => (events, ReaderOutcome.next st none (some msg))
  | none =>
    match pR body with
    | some resp =>
      let p := completeWithResponse st resp
      (events, ReaderOutcome.next p.1 p.2 none)
    | none =>
      if utf8Valid body then (events, ReaderOutcome.next st none none)
      else (events, ReaderOutcome.fatal "invalid utf-8")

/- ## Concrete states and decoders used by witnesses -/

/-- The freshly constructed shared state of `LanguageServer::new`
(src/process.rs:70-98): empty tables (`response_handlers` present), open
outbound channel, all tasks running. -/
def initState : LspState Int :=
  { nextId := 0, responseHandlers := some [], notificationHandlers := [], ioHandlers := [],
    outQueue := [], queueOpen := true, outputTaskAborted := false,
    stdinTaskAborted := false, stderrTaskAborted := false, stdoutTaskAborted := false,
    processKilled := false }

/-- A sample serde decoder for an integer-typed `T::Result` (accepts the
raw result text `null` only). -/
def decNullToZero : String → Option Int := fun s => if s = "null" then some 0 else none

/-- The serde decoder of a `T::Params = serde_json::Value` notification:
every JSON value deserializes. -/
def parseAnyValue : Json → Option Json := fun j => some j

/-- A serde decoder of an integer-typed `T::Params`: only JSON numbers
deserialize. -/
def parseIntParams : Json → Option Int := fun j =>
  match j with
  | Json.num n => some n
  | _ => none

/- ## Claim C9 -/

/-- Claim C9.  `on_notification` and `on_request` insert into the same
`notification_handlers` table and `assert!` that no previous handler existed
(src/listener.rs:197-210 and 226-290): registering a handler for a method
that already has one panics with `Multiple handler for <method> registered`
instead of silently replacing the handler and continuing. -/
theorem duplicate_registration_panics {R P P' R' : Type} (st : LspState R) (method : String)
    (parse : Json → Option P) (parse' : Json → Option P') (f : P' → Except String R')
    (ser : R' → Json)
    (h : (assocLookup st.notificationHandlers method).isSome = true) :
    (onNotification st method parse).2
        = Except.error ("Multiple handler for " ++ method ++ " registered")
    ∧ (onRequest st method parse' f ser).2
        = Except.error ("Multiple handler for " ++ method ++ " registered") := by
  obtain ⟨v, hv⟩ := Option.isSome_iff_exists.mp h
  constructor
  · simp only [onNotification, assocInsert_fst, hv]
  · simp only [onRequest, assocInsert_fst, hv]

/-- Witness for C9: a table already holding a handler for `"m"`; both
registration paths panic there. -/
theorem duplicate_registration_panics_witness :
    ((assocLookup
        (LspState.notificationHandlers
          { initState with
              notificationHandlers := [("m", notificationWrapper parseAnyValue)] })
        "m").isSome = true)
    ∧ ((onNotification
          { initState with
              notificationHandlers := [("m", notificationWrapper parseAnyValue)] }
          "m" parseAnyValue).2
        = Except.error ("Multiple handler for " ++ "m" ++ " registered")
      ∧ (onRequest
          { initState with
              notificationHandlers := [("m", notificationWrapper parseAnyValue)] }
          "m" parseAnyValue (fun (_ : Json) => Except.ok Json.null) (fun r => r)).2
        = Except.error ("Multiple handler for " ++ "m" ++ " registered")) :=
  ⟨rfl,
    duplicate_registration_panics
      { initState with
          notificationHandlers := [("m", notificationWrapper parseAnyValue)] }
      "m" parseAnyValue parseAnyValue (fun _ => Except.ok Json.null) (fun r => r) rfl⟩

/- ## Claim C10 -/

/-- Claim C10.  For a handler registered via `on_notification`, an incoming
notification whose params do not deserialize to the method's parameter type
is silently dropped (src/listener.rs:199-203): the user handler is not
invoked, nothing is sent back to the server, and the dispatch step leaves
the state (all tables) unchanged. -/
theorem undecodable_notification_dropped {R P : Type} (st : LspState R) (method : String)
    (parse : Json → Option P) (mid : Option RequestId) (params : Json)
    (hreg : assocLookup st.notificationHandlers method = some (notificationWrapper parse))
    (hparse : parse params = none) :
    handleOutputStep st { method := method, id := mid, params := some params }
      = (st, { userCalls := [], sent := [] }) := by
  simp only [handleOutputStep, hreg, Option.getD_some, notificationWrapper, hparse]

/-- Witness for C10: an integer-params handler registered for `"m"` fed a
string-params notification. -/
theorem undecodable_notification_dropped_witness :
    (assocLookup
        (LspState.notificationHandlers
          { initState with
              notificationHandlers := [("m", notificationWrapper parseIntParams)] })
        "m" = some (notificationWrapper parseIntParams)
      ∧ parseIntParams (Json.str "x") = none)
    ∧ handleOutputStep
        { initState with
            notificationHandlers := [("m", notificationWrapper parseIntParams)] }
        { method := "m", id := none, params := some (Json.str "x") }
      = ({ initState with
            notificationHandlers := [("m", notificationWrapper parseIntParams)] },
          { userCalls := [], sent := [] }) :=
  ⟨⟨rfl, rfl⟩,
    undecodable_notification_dropped
      { initState with
          notificationHandlers := [("m", notificationWrapper parseIntParams)] }
      "m" parseIntParams none (Json.str "x") rfl rfl⟩

/- ## Claim C6 -/

/-- A pending table holding one completion handler for id 0 with the sample
integer decoder. -/
def c6State : LspState Int :=
  { initState with
      responseHandlers := some [(RequestId.int 0, mkResponseHandler decNullToZero)] }

/-- Counterexample to C6 as stated.  The claim says the caller receives an
`RpcError` carrying the error object's message, *code and data*.  These two
responses to id 0 carry the same message but different codes and data, yet
the completion path (src/io.rs:237-238 feeding src/listener.rs:135, which
builds `anyhow!("{}", e.message)`) delivers bit-identical outcomes to the
caller — so the outcome cannot carry the code or the data. -/
theorem rpc_error_code_not_carried :
    (completeWithResponse c6State
        { jsonrpc := "2.0", id := RequestId.int 0, result := none,
          error := some { message := "boom", code := -32000, data := none } }).2
      = (completeWithResponse c6State
          { jsonrpc := "2.0", id := RequestId.int 0, result := none,
            error := some { message := "boom", code := -32001
                            , data := some (Json.str "details") } }).2
    ∧ (-32000 : Int) ≠ -32001 := by
  exact ⟨rfl, by decide⟩

/-- Claim C6 as amended.  For every `request()` whose matching response
carries an error object (error set, result omitted), the call returns an
RPC error carrying that error object's *message only* — the code and data
are discarded by `anyhow!("{}", e.message)` (src/listener.rs:135) — and
never a successfully-decoded result. -/
theorem response_error_yields_message_only_error {R : Type} (st : LspState R)
    (m : List (RequestId × RHandler R)) (dec : String → Option R) (resp : AnyResponse)
    (e : LSPError)
    (hrh : st.responseHandlers = some m)
    (hrem : (assocRemove m resp.id).1 = some (mkResponseHandler dec))
    (herr : resp.error = some e)
    (_hres : resp.result = none) :
    (completeWithResponse st resp).2 = some (ReqOutcome.rpcErr e.message) := by
  rcases hp : assocRemove m resp.id with ⟨ho, m'⟩
  rw [hp] at hrem
  simp only at hrem
  subst hrem
  unfold completeWithResponse
  simp only [hrh, hp, herr, mkResponseHandler]

/-- Witness for C6 (amended): completing id 0 with a `boom` error yields
exactly `rpcErr "boom"`. -/
theorem response_error_yields_message_only_error_witness :
    (c6State.responseHandlers
        = some [(RequestId.int 0, mkResponseHandler decNullToZero)]
      ∧ (assocRemove [(RequestId.int 0, mkResponseHandler decNullToZero)]
          (AnyResponse.id
            { jsonrpc := "2.0", id := RequestId.int 0, result := none,
              error := some { message := "boom", code := -32000, data := none } })).1
        = some (mkResponseHandler decNullToZero))
    ∧ (completeWithResponse c6State
        { jsonrpc := "2.0", id := RequestId.int 0, result := none,
          error := some { message := "boom", code := -32000, data := none } }).2
      = some (ReqOutcome.rpcErr "boom") :=
  ⟨⟨rfl, rfl⟩,
    response_error_yields_message_only_error c6State
      [(RequestId.int 0, mkResponseHandler decNullToZero)] decNullToZero
      { jsonrpc := "2.0", id := RequestId.int 0, result := none,
        error := some { message := "boom", code := -32000, data := none } }
      { message := "boom", code := -32000, data := none } rfl rfl rfl rfl⟩

/- ## Claim C7 -/

theorem stdinObserve_eq_map (handlers : List Int) (message : String) :
    stdinObserve handlers message
      = handlers.map (fun h => WriterEvent.observe h IOKind.In message) := by
  induction handlers with
  | nil => rfl
  | cons h t ih => simp [stdinObserve, ih]

/-- Counterexample to C7 as stated.  The claim says the writer loop invokes
each observer with direction = out; at the concrete input (observer table
`[0]`, message `"x"`) the first event of the writer-loop iteration is an
observer invocation with `IOKind::In` (src/io.rs:167), and `In ≠ Out`. -/
theorem writer_observer_direction_is_in :
    (stdinIter [0] "x").head? = some (WriterEvent.observe 0 IOKind.In "x")
    ∧ IOKind.In ≠ IOKind.Out := by
  exact ⟨rfl, by decide⟩

/-- Claim C7 as amended.  For every message the writer loop takes off the
outbound queue, each registered I/O observer is invoked — with direction =
`In`, the name of the subprocess stream the writer feeds (src/io.rs:166-168)
— before the message is framed and written; and for every frame body read
by the reader loop that is valid UTF-8, each registered observer is invoked
with direction = `Out` and the body (src/io.rs:214-220).  The directions are
swapped relative to the claim, which follows the spec's outbound/inbound
naming. -/
theorem io_observer_direction_and_order {R : Type} (handlers : List Int) (message : String)
    (pN : List Nat → Option AnyNotification) (pR : List Nat → Option AnyResponse)
    (st : LspState R) (body : List Nat)
    (hu : utf8Valid body = true) :
    stdinIter handlers message
      = handlers.map (fun h => WriterEvent.observe h IOKind.In message)
        ++ [WriterEvent.write (encodeFrame (strBytes message))]
    ∧ (stdoutIter pN pR st body).1
      = st.ioHandlers.map (fun h => ReaderEvent.observe h IOKind.Out body) := by
  constructor
  · unfold stdinIter
    rw [stdinObserve_eq_map]
  · unfold stdoutIter
    simp only [hu, if_true]
    cases pN body with
    | some msg => rfl
    | none =>
      cases pR body with
      | some resp => rfl
      | none => simp [hu]

/-- Witness for C7 (amended): one observer on each side, message `"a"`,
body `[104]` (valid UTF-8). -/
theorem io_observer_direction_and_order_witness :
    utf8Valid [104] = true
    ∧ (stdinIter [1] "a"
        = [1].map (fun h => WriterEvent.observe h IOKind.In "a")
          ++ [WriterEvent.write (encodeFrame (strBytes "a"))]
      ∧ (stdoutIter (fun _ => none) (fun _ => none)
          { initState with ioHandlers := [2] } [104]).1
        = [2].map (fun h => ReaderEvent.observe h IOKind.Out [104])) :=
  ⟨by decide,
    io_observer_direction_and_order [1] "a" (fun _ => none) (fun _ => none)
      { initState with ioHandlers := [2] } [104] (by decide)⟩

/- ## Claim C1 -/

/-- Claim C1 (code bug).  A `request()` whose 5-second timeout fires first
does return the timeout error (`bail!("Lsp Request time out")`,
src/listener.rs:169-171), but — contrary to the claim and to the spec's
required contract — the `select!` timeout branch removes nothing, so at the
moment the timeout error is returned the pending-response table still
contains the request's id: starting from the fresh state, the timed-out
request's entry for id 0 is still in the table. -/
theorem request_timeout_leaves_pending_entry :
    (runRequestNoResponse initState "initialize" Json.null decNullToZero).1
        = ReqOutcome.timeoutErr "Lsp Request time out"
    ∧ (((runRequestNoResponse initState "initialize" Json.null
          decNullToZero).2.responseHandlers.getD []).map (fun p => p.1))
        = [RequestId.int 0] :=
  ⟨rfl, rfl⟩

/- ## Claim C2 -/

/-- Claim C2 (code bug).  A `request()` issued after the pending-response
table has been cleared fails — but not as claimed: the serialized request
*is* still enqueued onto the outbound queue (the send at
src/listener.rs:143-147 runs unconditionally), and the caller receives the
channel-closed `RecvError` from `rx.await`, the `anyhow!("Server shutdown")`
value having been discarded by `unwrap_or_default()` at
src/listener.rs:154. -/
theorem request_after_clear_enqueues_and_loses_shutdown_error :
    (runRequestNoResponse { initState with responseHandlers := none }
        "initialize" Json.null decNullToZero).1 = ReqOutcome.recvErr
    ∧ (runRequestNoResponse { initState with responseHandlers := none }
        "initialize" Json.null decNullToZero).2.outQueue
      = [renderRequest 0 "initialize" Json.null] :=
  ⟨rfl, rfl⟩

/- ## Claim C3 -/

/-- Claim C3 (code bug).  `Subscription` has no `Drop` implementation
(src/utils.rs:30-53), so dropping a bound subscription removes nothing from
the handler table: after registering a handler for `"m"`, receiving its
bound subscription, and dropping that subscription, a notification for
`"m"` still invokes the registered handler — contrary to the claim. -/
theorem dropped_subscription_handler_still_invoked :
    (onNotification initState "m" parseAnyValue).2
        = Except.ok (Subscription.notif "m" true)
    ∧ (handleOutputStep
        (subscriptionDrop (Subscription.notif "m" true)
          (onNotification initState "m" parseAnyValue).1)
        { method := "m", id := none, params := some Json.null }).2.userCalls
      = [Json.null] :=
  ⟨rfl, rfl⟩

/- ## Claim C4 -/

/-- Claim C4 (code bug).  A frame body that parses as neither shape is only
logged-and-skipped when it is valid UTF-8; the log call itself evaluates
`std::str::from_utf8(&buffer)?` (src/io.rs:247-250), so for a body that is
*not* valid UTF-8 the `?` propagates a `Utf8Error` out of `stdout_task`,
terminating the reader loop with a connection-level error — contrary to the
claim that such frames never stop the loop. -/
theorem reader_loop_fatal_on_invalid_utf8_frame {R : Type}
    (pN : List Nat → Option AnyNotification) (pR : List Nat → Option AnyResponse)
    (st : LspState R) (body : List Nat)
    (hN : pN body = none) (hR : pR body = none) (hu : utf8Valid body = false) :
    stdoutIter pN pR st body = ([], ReaderOutcome.fatal "invalid utf-8") := by
  unfold stdoutIter
  simp [hN, hR, hu]

/-- Witness for C4: the single byte `0xFF` is not valid UTF-8 and parses as
neither shape; the reader loop dies on it. -/
theorem reader_loop_fatal_on_invalid_utf8_frame_witness :
    ((fun (_ : List Nat) => (none : Option AnyNotification)) [255] = none
      ∧ (fun (_ : List Nat) => (none : Option AnyResponse)) [255] = none
      ∧ utf8Valid [255] = false)
    ∧ stdoutIter (fun _ => none) (fun _ => none) initState [255]
        = ([], ReaderOutcome.fatal "invalid utf-8") :=
  ⟨⟨rfl, rfl, by decide⟩,
    reader_loop_fatal_on_invalid_utf8_frame (fun _ => none) (fun _ => none)
      initState [255] rfl rfl (by decide)⟩

/- ## Claim C5 -/

/-- A state with one registered notification handler, one I/O observer, and
one pending request, about to be killed. -/
def c5State : LspState Int :=
  { initState with
      notificationHandlers := [("m", notificationWrapper parseAnyValue)],
      ioHandlers := [7],
      responseHandlers := some [(RequestId.int 0, mkResponseHandler decNullToZero)] }

/-- Claim C5 (code bug).  After `kill()` returns
(src/process.rs:216-220 → src/io.rs:303-310 → src/listener.rs:314-321),
the notification-handler and I/O-observer tables still hold their entries —
the `drop(table.lock())` statements drop only the mutex guards — and the
pending-response entry is also still present.  The pending waiters are only
resolved later, when the aborted tasks' deferred cleanup takes the table and
drops the completion closures, which delivers a channel-closed `RecvError`
to each waiter, not a ShutdownError. -/
theorem kill_leaves_tables_and_waiters_get_recv_error :
    ((languageServerKill c5State).notificationHandlers.map (fun p => p.1)) = ["m"]
    ∧ (languageServerKill c5State).ioHandlers = [7]
    ∧ (((languageServerKill c5State).responseHandlers.getD []).map (fun p => p.1))
        = [RequestId.int 0]
    ∧ (responseHandlersCleanup (languageServerKill c5State)).2
        = [(RequestId.int 0, ReqOutcome.recvErr)] :=
  ⟨rfl, rfl, rfl, rfl⟩
